import Mathlib

/-!
Shallow embedding of `spot_driver/src/spot_driver/teleop_funcs.py`.

The Python module implements a debounced command arbiter turning joystick
samples into discrete robot commands.  We embed it as pure functions over an
explicit state (`TeleopState`), an environment describing the actuator
wrapper's behaviour (`SpotWrapper`), and an event trace (`List Event`)
recording every actuator call, settle-delay sleep and log line, in program
order.  Joystick axes are modelled as rationals; the decimal thresholds
`-0.99`, `-0.9`, `0.9` of the source are exact rationals.
-/

namespace SpotTeleop

/-- `class LocomotionHint(IntEnum)` of the source, with its seven members. -/
inductive LocomotionHint
  | HINT_AUTO
  | HINT_TROT
  | HINT_SPEED_SELECT_TROT
  | HINT_CRAWL
  | HINT_SPEED_SELECT_CRAWL
  | HINT_AMBLE
  | HINT_SPEED_SELECT_AMBLE
  deriving DecidableEq

/-- The integer value of each `LocomotionHint` member, as in the source. -/
def LocomotionHint.toInt : LocomotionHint → Int
  | .HINT_AUTO => 1
  | .HINT_TROT => 2
  | .HINT_SPEED_SELECT_TROT => 3
  | .HINT_CRAWL => 4
  | .HINT_SPEED_SELECT_CRAWL => 10
  | .HINT_AMBLE => 5
  | .HINT_SPEED_SELECT_AMBLE => 6

/-- Constructing `LocomotionHint(value)`: the member whose value matches, and
for any other value the `_missing_` classmethod returns `HINT_AUTO`. -/
def LocomotionHint.ofInt (v : Int) : LocomotionHint :=
  if v = 1 then .HINT_AUTO
  else if v = 2 then .HINT_TROT
  else if v = 3 then .HINT_SPEED_SELECT_TROT
  else if v = 4 then .HINT_CRAWL
  else if v = 10 then .HINT_SPEED_SELECT_CRAWL
  else if v = 5 then .HINT_AMBLE
  else if v = 6 then .HINT_SPEED_SELECT_AMBLE
  else .HINT_AUTO

/-- `class StairsMode(IntEnum)` of the source. -/
inductive StairsMode
  | STAIRS_MODE_OFF
  | STAIRS_MODE_ON
  | STAIRS_MODE_AUTO
  deriving DecidableEq

/-- The integer value of each `StairsMode` member, as in the source. -/
def StairsMode.toInt : StairsMode → Int
  | .STAIRS_MODE_OFF => 1
  | .STAIRS_MODE_ON => 2
  | .STAIRS_MODE_AUTO => 3

/-- Constructing `StairsMode(value)`: the member whose value matches, and for
any other value the `_missing_` classmethod returns `STAIRS_MODE_AUTO`. -/
def StairsMode.ofInt (v : Int) : StairsMode :=
  if v = 1 then .STAIRS_MODE_OFF
  else if v = 2 then .STAIRS_MODE_ON
  else if v = 3 then .STAIRS_MODE_AUTO
  else .STAIRS_MODE_AUTO

/-- The mobility-parameters object of the actuator wrapper: only the two
fields the source reads or writes. -/
structure MobilityParams where
  locomotion_hint : Int
  stair_hint : Int
  deriving DecidableEq

/-- A joystick sample: the `axes` array of the `Joy` message (the source
reads indices 2, 5, 6 and 7). -/
structure JoyMsg where
  axes : Nat → ℚ

/-- Environment: the behaviour of `self.spot_wrapper` during one sample.
`get_mobility_params` is `Except.error e` when the call raises exception `e`;
`set_mobility_params_err = some e` when that call raises. -/
structure SpotWrapper where
  check_is_powered_on : Bool
  is_sitting : Bool
  power_on_resp : String × String
  safe_power_off_resp : String × String
  sit_resp : String × String
  stand_resp : String × String
  get_mobility_params : Except String MobilityParams
  set_mobility_params_err : Option String

/-- The constructor arguments `power_on_pause_secs`, `sit_stand_pause_secs`,
`toggle_pause_secs` of `TeleopFuncs.__init__`. -/
structure Config where
  power_on_pause_secs : ℚ
  sit_stand_pause_secs : ℚ
  toggle_pause_secs : ℚ

/-- The default constructor arguments (3, 5, 0.5 seconds). -/
def Config.default : Config := ⟨3, 5, 1/2⟩

/-- The mutable instance state of a `TeleopFuncs` object: the shared `pause`
flag, the two preset lists (instance attributes in the source) and the two
mode-cycle indices. -/
structure TeleopState where
  pause : Bool
  valid_locomotion_hints : List (LocomotionHint × String)
  locomotion_mode_idx : Nat
  valid_stair_hints : List (StairsMode × String)
  stair_mode_idx : Nat
  deriving DecidableEq

/-- The state set up by `TeleopFuncs.__init__`. -/
def TeleopState.init : TeleopState where
  pause := false
  valid_locomotion_hints :=
    [(.HINT_AUTO, "AUTO"),
     (.HINT_TROT, "TROT"),
     (.HINT_SPEED_SELECT_TROT, "TROT WITH STOP"),
     (.HINT_CRAWL, "CRAWL"),
     (.HINT_SPEED_SELECT_CRAWL, "CRAWL WITH STOP"),
     (.HINT_AMBLE, "AMBLE"),
     (.HINT_SPEED_SELECT_AMBLE, "AMBLE WITH STOP")]
  locomotion_mode_idx := 0
  valid_stair_hints :=
    [(.STAIRS_MODE_OFF, "OFF"),
     (.STAIRS_MODE_ON, "ON"),
     (.STAIRS_MODE_AUTO, "AUTOSELECT")]
  stair_mode_idx := 0

/-- Observable events of one sample, in program order: actuator-wrapper
calls, `time.sleep` settle delays, and `print` log lines. -/
inductive Event
  | checkIsPoweredOn
  | powerOn
  | safePowerOff
  | sit
  | stand
  | getMobilityParams
  | setMobilityParams (p : MobilityParams)
  | sleep (secs : ℚ)
  | log (msg : String)
  deriving DecidableEq

/-- The circular advance `(idx + 1) % len(entries)` used by both mode-cycle
handlers. -/
def modeAdvance {α : Type} (entries : List α) (idx : Nat) : Nat :=
  (idx + 1) % entries.length

namespace TeleopFuncs

/-- `TeleopFuncs._handle_toggle_power`. -/
def handleTogglePower (cfg : Config) (w : SpotWrapper) (s : TeleopState) :
    TeleopState × List Event :=
  let callEvents :=
    if w.check_is_powered_on then
      [Event.checkIsPoweredOn, Event.safePowerOff,
       Event.log ("ON --> OFF " ++ w.safe_power_off_resp.1 ++ " " ++ w.safe_power_off_resp.2)]
    else
      [Event.checkIsPoweredOn, Event.powerOn,
       Event.log ("OFF --> ON " ++ w.power_on_resp.1 ++ " " ++ w.power_on_resp.2)]
  ({ s with pause := false },
   Event.log "Received power on/off command" ::
     callEvents ++ [Event.sleep cfg.power_on_pause_secs])

/-- `TeleopFuncs._handle_toggle_sit_stand`.  The third component is the
method's return value: the denial reason string when the motion-authorization
predicate `movement_query_fn` refuses, `none` on the normal path. -/
def handleToggleSitStand (cfg : Config) (w : SpotWrapper)
    (movement_query_fn : Bool → Bool) (s : TeleopState) :
    TeleopState × List Event × Option String :=
  if movement_query_fn false = false then
    (s, [Event.log "Received sit/stand command"],
     some "Not changing sit/stand. Robot motion not allowed!")
  else
    let callEvents :=
      if w.is_sitting then
        [Event.stand,
         Event.log ("SIT --> STAND: " ++ w.stand_resp.1 ++ " " ++ w.stand_resp.2)]
      else
        [Event.sit,
         Event.log ("STAND --> SIT " ++ w.sit_resp.1 ++ " " ++ w.sit_resp.2)]
    ({ s with pause := false },
     Event.log "Received sit/stand command" ::
       callEvents ++ [Event.sleep cfg.sit_stand_pause_secs],
     none)

/-- `TeleopFuncs._handle_toggle_locomotion_mode`.  The `try`/`except` block
is embedded as a match on the wrapper's outcomes; an exception is caught and
logged, never propagated. -/
def handleToggleLocomotionMode (cfg : Config) (w : SpotWrapper) (s : TeleopState) :
    TeleopState × List Event :=
  let idx := modeAdvance s.valid_locomotion_hints s.locomotion_mode_idx
  let entry := s.valid_locomotion_hints.getD idx (LocomotionHint.HINT_AUTO, "")
  let tryEvents :=
    match w.get_mobility_params with
    | Except.error e =>
        [Event.getMobilityParams,
         Event.log ("Error setting locomotion mode:" ++ e)]
    | Except.ok mobility_params =>
        let updated := { mobility_params with locomotion_hint := entry.1.toInt }
        match w.set_mobility_params_err with
        | some e =>
            [Event.getMobilityParams, Event.setMobilityParams updated,
             Event.log ("Error setting locomotion mode:" ++ e)]
        | none =>
            [Event.getMobilityParams, Event.setMobilityParams updated,
             Event.log ("Set locomotion mode to: " ++ entry.2)]
  ({ s with locomotion_mode_idx := idx, pause := false },
   tryEvents ++ [Event.sleep cfg.toggle_pause_secs])

/-- `TeleopFuncs._handle_toggle_stairs_mode`. -/
def handleToggleStairsMode (cfg : Config) (w : SpotWrapper) (s : TeleopState) :
    TeleopState × List Event :=
  let idx := modeAdvance s.valid_stair_hints s.stair_mode_idx
  let entry := s.valid_stair_hints.getD idx (StairsMode.STAIRS_MODE_AUTO, "")
  let tryEvents :=
    match w.get_mobility_params with
    | Except.error e =>
        [Event.getMobilityParams,
         Event.log ("Error setting stair mode:" ++ e)]
    | Except.ok mobility_params =>
        let updated := { mobility_params with stair_hint := entry.1.toInt }
        match w.set_mobility_params_err with
        | some e =>
            [Event.getMobilityParams, Event.setMobilityParams updated,
             Event.log ("Error setting stair mode:" ++ e)]
        | none =>
            [Event.getMobilityParams, Event.setMobilityParams updated,
             Event.log ("Set stair mode to: " ++ entry.2)]
  ({ s with stair_mode_idx := idx, pause := false },
   tryEvents ++ [Event.sleep cfg.toggle_pause_secs])

/-- The four discrete actions a sample can dispatch. -/
inductive Action
  | power
  | sitStand
  | locomotionCycle
  | stairsCycle
  deriving DecidableEq

/-- The arbiter: the `if`/`elif` chain of `handle_joy`, selecting at most one
of the fired triggers in strict priority order. -/
def selectAction (toggle_power toggle_sit_stand toggle_locomotion_mode
    toggle_stairs_mode : Bool) : Option Action :=
  if toggle_power then some Action.power
  else if toggle_sit_stand then some Action.sitStand
  else if toggle_locomotion_mode then some Action.locomotionCycle
  else if toggle_stairs_mode then some Action.stairsCycle
  else none

/-- Running the handler the arbiter selected (the bodies of the `if`/`elif`
branches of `handle_joy`); the sit/stand return string is discarded, as in
the source. -/
def dispatchSelected (cfg : Config) (w : SpotWrapper)
    (movement_query_fn : Bool → Bool) (s1 : TeleopState) :
    Option Action → TeleopState × List Event
  | some Action.power => handleTogglePower cfg w s1
  | some Action.sitStand =>
      let r := handleToggleSitStand cfg w movement_query_fn s1
      (r.1, r.2.1)
  | some Action.locomotionCycle => handleToggleLocomotionMode cfg w s1
  | some Action.stairsCycle => handleToggleStairsMode cfg w s1
  | none => (s1, [])

/-- `TeleopFuncs.handle_joy`: the per-sample entry point.  When the enable
axis is not held past its threshold nothing at all happens; otherwise the
four trigger conditions are evaluated only while `pause` is false, `pause`
is set to their disjunction, and the highest-priority fired trigger is
dispatched. -/
def handle_joy (cfg : Config) (w : SpotWrapper) (movement_query_fn : Bool → Bool)
    (s : TeleopState) (joy_msg : JoyMsg) : TeleopState × List Event :=
  if joy_msg.axes 2 < -0.99 then
    let toggle_power := !s.pause && decide (joy_msg.axes 5 < -0.9)
    let toggle_sit_stand := !s.pause && decide (joy_msg.axes 7 > 0.9)
    let toggle_locomotion_mode := !s.pause && decide (joy_msg.axes 6 > 0.9)
    let toggle_stairs_mode := !s.pause && decide (joy_msg.axes 6 < -0.9)
    let s1 := { s with pause :=
      toggle_power || toggle_sit_stand || toggle_locomotion_mode || toggle_stairs_mode }
    let r := dispatchSelected cfg w movement_query_fn s1
      (selectAction toggle_power toggle_sit_stand toggle_locomotion_mode toggle_stairs_mode)
    (r.1, Event.log ("Enabled: " ++ toString s.pause) :: r.2)
  else
    (s, [])

end TeleopFuncs

/-! Concrete fixtures used by witnesses and counterexamples. -/

/-- A motion-authorization predicate that always allows motion. -/
def mvqAllow : Bool → Bool := fun _ => true

/-- A motion-authorization predicate that always denies motion. -/
def mvqDeny : Bool → Bool := fun _ => false

/-- A wrapper reporting powered-off and standing, all calls succeeding. -/
def wOff : SpotWrapper where
  check_is_powered_on := false
  is_sitting := false
  power_on_resp := ("ok", "powering on")
  safe_power_off_resp := ("ok", "powering off")
  sit_resp := ("ok", "sitting")
  stand_resp := ("ok", "standing")
  get_mobility_params := Except.ok ⟨1, 1⟩
  set_mobility_params_err := none

/-- A wrapper whose `get_mobility_params` raises. -/
def wGetFails : SpotWrapper :=
  { wOff with get_mobility_params := Except.error "comms error" }

/-- A wrapper whose `set_mobility_params` raises. -/
def wSetFails : SpotWrapper :=
  { wOff with set_mobility_params_err := some "write refused" }

/-- A state whose locomotion list is the three-entry scenario list
`[AUTO, TROT, CRAWL]` of the spec. -/
def sThreeEntry : TeleopState :=
  { TeleopState.init with valid_locomotion_hints :=
      [(.HINT_AUTO, "AUTO"), (.HINT_TROT, "TROT"), (.HINT_CRAWL, "CRAWL")] }

/-- A sample with the enable axis and the power axis held. -/
def jPower : JoyMsg := ⟨fun i => if i = 2 then -1 else if i = 5 then -1 else 0⟩

/-- A sample with the enable axis and the sit/stand axis held. -/
def jSitStand : JoyMsg := ⟨fun i => if i = 2 then -1 else if i = 7 then 1 else 0⟩

/-- A sample with the enable axis, the power axis and the stairs axis held. -/
def jPowerStairs : JoyMsg :=
  ⟨fun i => if i = 2 then -1 else if i = 5 then -1 else if i = 6 then -1 else 0⟩

/-- An enabled sample with no trigger axis held. -/
def jEnabledIdle : JoyMsg := ⟨fun i => if i = 2 then -1 else 0⟩

/-- A sample with the enable axis released (all axes neutral). -/
def jDisabled : JoyMsg := ⟨fun _ => 0⟩

/-! Helper lemmas shared by the claim theorems. -/

/-- A sample with the enable axis not past its threshold does nothing. -/
theorem handle_joy_not_enabled (cfg : Config) (w : SpotWrapper)
    (movement_query_fn : Bool → Bool) (s : TeleopState) (j : JoyMsg)
    (hen : ¬ j.axes 2 < -0.99) :
    TeleopFuncs.handle_joy cfg w movement_query_fn s j = (s, []) := by
  unfold TeleopFuncs.handle_joy
  rw [if_neg hen]

/-- An enabled sample arriving while `pause` is true arms no trigger: it
only clears `pause` and logs the enable line. -/
theorem handle_joy_paused (cfg : Config) (w : SpotWrapper)
    (movement_query_fn : Bool → Bool) (s : TeleopState) (j : JoyMsg)
    (hen : j.axes 2 < -0.99) (hp : s.pause = true) :
    TeleopFuncs.handle_joy cfg w movement_query_fn s j =
      ({ s with pause := false }, [Event.log ("Enabled: " ++ toString s.pause)]) := by
  unfold TeleopFuncs.handle_joy
  rw [if_pos hen]
  simp [hp, TeleopFuncs.selectAction, TeleopFuncs.dispatchSelected]

/-- An enabled, un-paused sample with the power axis held dispatches the
power toggle, whatever the other axes hold. -/
theorem handle_joy_power (cfg : Config) (w : SpotWrapper)
    (movement_query_fn : Bool → Bool) (s : TeleopState) (j : JoyMsg)
    (hen : j.axes 2 < -0.99) (hp : s.pause = false) (hpow : j.axes 5 < -0.9) :
    TeleopFuncs.handle_joy cfg w movement_query_fn s j =
      ((TeleopFuncs.handleTogglePower cfg w { s with pause := true }).1,
       Event.log ("Enabled: " ++ toString s.pause) ::
         (TeleopFuncs.handleTogglePower cfg w { s with pause := true }).2) := by
  unfold TeleopFuncs.handle_joy
  rw [if_pos hen]
  simp [hp, decide_eq_true hpow, TeleopFuncs.selectAction, TeleopFuncs.dispatchSelected]

/-- An enabled, un-paused sample with the sit/stand axis held (power axis
released) whose motion authorization is denied: `pause` is left true and
nothing but two log lines happens. -/
theorem handle_joy_sit_stand_denied (cfg : Config) (w : SpotWrapper)
    (movement_query_fn : Bool → Bool) (s : TeleopState) (j : JoyMsg)
    (hen : j.axes 2 < -0.99) (hp : s.pause = false) (hnp : ¬ j.axes 5 < -0.9)
    (hss : j.axes 7 > 0.9) (hdeny : movement_query_fn false = false) :
    TeleopFuncs.handle_joy cfg w movement_query_fn s j =
      ({ s with pause := true },
       [Event.log ("Enabled: " ++ toString s.pause),
        Event.log "Received sit/stand command"]) := by
  unfold TeleopFuncs.handle_joy
  rw [if_pos hen]
  simp [hp, decide_eq_false hnp, decide_eq_true hss, TeleopFuncs.selectAction,
    TeleopFuncs.dispatchSelected, TeleopFuncs.handleToggleSitStand, hdeny]

/-- The power handler always ends with `pause` cleared. -/
theorem handleTogglePower_fst (cfg : Config) (w : SpotWrapper) (s : TeleopState) :
    (TeleopFuncs.handleTogglePower cfg w s).1 = { s with pause := false } := rfl

/-- The power handler always queries the powered-on state. -/
theorem handleTogglePower_queries (cfg : Config) (w : SpotWrapper) (s : TeleopState) :
    Event.checkIsPoweredOn ∈ (TeleopFuncs.handleTogglePower cfg w s).2 := by
  cases hw : w.check_is_powered_on <;> simp [TeleopFuncs.handleTogglePower, hw]

/-- Iterating the circular advance adds the iteration count modulo the
list length. -/
theorem modeAdvance_iterate {α : Type} (entries : List α) (k idx : Nat)
    (hidx : idx < entries.length) :
    (modeAdvance entries)^[k] idx = (idx + k) % entries.length := by
  induction k with
  | zero => simp [Nat.mod_eq_of_lt hidx]
  | succ n ih =>
      rw [Function.iterate_succ_apply', ih]
      unfold modeAdvance
      conv_rhs => rw [← Nat.add_assoc, Nat.add_mod]
      rw [Nat.add_mod ((idx + n) % entries.length) 1]
      simp [Nat.mod_mod_of_dvd]

/-! Claim theorems. -/

/-- Claim C2: for every input sample in which the master enable condition
does not hold (`axes[2]` not below `-0.99`), no trigger fires, no actuator
call is made, and no state is mutated — the pause flag and both mode-cycle
indices are unchanged — regardless of all other button and axis values. -/
theorem C2_disabled_no_effect (cfg : Config) (w : SpotWrapper)
    (movement_query_fn : Bool → Bool) (s : TeleopState) (j : JoyMsg)
    (hen : ¬ j.axes 2 < -0.99) :
    TeleopFuncs.handle_joy cfg w movement_query_fn s j = (s, [])
    ∧ (TeleopFuncs.handle_joy cfg w movement_query_fn s j).1.pause = s.pause
    ∧ (TeleopFuncs.handle_joy cfg w movement_query_fn s j).1.locomotion_mode_idx
        = s.locomotion_mode_idx
    ∧ (TeleopFuncs.handle_joy cfg w movement_query_fn s j).1.stair_mode_idx
        = s.stair_mode_idx := by
  have h := handle_joy_not_enabled cfg w movement_query_fn s j hen
  exact ⟨h, by rw [h], by rw [h], by rw [h]⟩

theorem C2_disabled_no_effect_witness :
    TeleopFuncs.handle_joy Config.default wOff mvqAllow TeleopState.init jDisabled
      = (TeleopState.init, []) :=
  (C2_disabled_no_effect Config.default wOff mvqAllow TeleopState.init jDisabled
    (by with_unfolding_all decide)).1

/-- Claim C3: whenever the motion-authorization predicate returns false, a
sit/stand dispatch makes no actuator call at all (no `sit()` and no
`stand()` in its trace), aborts with the state untouched, and returns the
user-visible denial reason. -/
theorem C3_sit_stand_authorization (cfg : Config) (w : SpotWrapper)
    (movement_query_fn : Bool → Bool) (s : TeleopState)
    (hdeny : movement_query_fn false = false) :
    TeleopFuncs.handleToggleSitStand cfg w movement_query_fn s =
      (s, [Event.log "Received sit/stand command"],
       some "Not changing sit/stand. Robot motion not allowed!")
    ∧ Event.sit ∉ (TeleopFuncs.handleToggleSitStand cfg w movement_query_fn s).2.1
    ∧ Event.stand ∉ (TeleopFuncs.handleToggleSitStand cfg w movement_query_fn s).2.1 := by
  have h : TeleopFuncs.handleToggleSitStand cfg w movement_query_fn s =
      (s, [Event.log "Received sit/stand command"],
       some "Not changing sit/stand. Robot motion not allowed!") := by
    unfold TeleopFuncs.handleToggleSitStand
    rw [if_pos hdeny]
  refine ⟨h, ?_, ?_⟩ <;> rw [h] <;> simp

theorem C3_sit_stand_authorization_witness :
    TeleopFuncs.handleToggleSitStand Config.default wOff mvqDeny TeleopState.init =
      (TeleopState.init, [Event.log "Received sit/stand command"],
       some "Not changing sit/stand. Robot motion not allowed!") :=
  (C3_sit_stand_authorization Config.default wOff mvqDeny TeleopState.init rfl).1

/-- Claim C6: for any non-empty entry list, the mode-cycle advance is
`index := (index + 1) mod len(entries)`, never throws (it is a total
function), always leaves the index in `[0, len(entries))`, and advancing
`N` times returns to the original entry whenever `N` is a multiple of the
list length; both mode-cycle handlers advance their index exactly this
way. -/
theorem C6_mode_cycle_advance {α : Type} (entries : List α) (idx N : Nat)
    (cfg : Config) (w : SpotWrapper) (s : TeleopState)
    (hne : entries ≠ []) (hidx : idx < entries.length) (hN : N % entries.length = 0) :
    modeAdvance entries idx = (idx + 1) % entries.length
    ∧ modeAdvance entries idx < entries.length
    ∧ (modeAdvance entries)^[N] idx = idx
    ∧ (TeleopFuncs.handleToggleLocomotionMode cfg w s).1.locomotion_mode_idx
        = modeAdvance s.valid_locomotion_hints s.locomotion_mode_idx
    ∧ (TeleopFuncs.handleToggleStairsMode cfg w s).1.stair_mode_idx
        = modeAdvance s.valid_stair_hints s.stair_mode_idx := by
  have hlen : 0 < entries.length := List.length_pos.mpr hne
  refine ⟨rfl, Nat.mod_lt _ hlen, ?_, rfl, rfl⟩
  rw [modeAdvance_iterate entries N idx hidx]
  obtain ⟨m, rfl⟩ := Nat.dvd_of_mod_eq_zero hN
  rw [Nat.add_mul_mod_self_left, Nat.mod_eq_of_lt hidx]

theorem C6_mode_cycle_advance_witness :
    (modeAdvance TeleopState.init.valid_locomotion_hints)^[14] 0 = 0 :=
  (C6_mode_cycle_advance TeleopState.init.valid_locomotion_hints 0 14
    Config.default wOff TeleopState.init (by with_unfolding_all decide)
    (by with_unfolding_all decide) (by with_unfolding_all decide)).2.2.1

/-- Claim C8: decoding a preset value is total (both decoders are total
functions into their enum) and never yields an out-of-range value: for
every raw integer that matches no member value, the locomotion-hint decoder
returns `HINT_AUTO` and the stairs-mode decoder returns
`STAIRS_MODE_AUTO` (the AUTOSELECT entry), with no failure raised. -/
theorem C8_unknown_preset_defaults (v : Int)
    (hl : v ∉ ([1, 2, 3, 4, 10, 5, 6] : List Int))
    (hs : v ∉ ([1, 2, 3] : List Int)) :
    LocomotionHint.ofInt v = LocomotionHint.HINT_AUTO
    ∧ StairsMode.ofInt v = StairsMode.STAIRS_MODE_AUTO := by
  simp only [List.mem_cons, List.not_mem_nil, or_false, not_or] at hl hs
  obtain ⟨h1, h2, h3, h4, h10, h5, h6⟩ := hl
  obtain ⟨g1, g2, g3⟩ := hs
  constructor
  · simp [LocomotionHint.ofInt, h1, h2, h3, h4, h10, h5, h6]
  · simp [StairsMode.ofInt, g1, g2, g3]

theorem C8_unknown_preset_defaults_witness :
    LocomotionHint.ofInt 42 = LocomotionHint.HINT_AUTO
    ∧ StairsMode.ofInt 42 = StairsMode.STAIRS_MODE_AUTO :=
  C8_unknown_preset_defaults 42 (by decide) (by decide)

/-- Claim C9: when the actuator's mobility-parameter read or write fails
during a locomotion-cycle or stairs-cycle dispatch, the failure is caught
and logged (the handler returns normally, never propagating a fault) and
the corresponding mode-cycle index remains at its new, already-advanced
value. -/
theorem C9_actuator_failure_recovered (cfg : Config) (w1 w2 : SpotWrapper)
    (s : TeleopState) (e1 e2 : String) (mp : MobilityParams)
    (hget : w1.get_mobility_params = Except.error e1)
    (hok : w2.get_mobility_params = Except.ok mp)
    (hset : w2.set_mobility_params_err = some e2) :
    (TeleopFuncs.handleToggleLocomotionMode cfg w1 s).1.locomotion_mode_idx
        = modeAdvance s.valid_locomotion_hints s.locomotion_mode_idx
    ∧ Event.log ("Error setting locomotion mode:" ++ e1)
        ∈ (TeleopFuncs.handleToggleLocomotionMode cfg w1 s).2
    ∧ (TeleopFuncs.handleToggleStairsMode cfg w1 s).1.stair_mode_idx
        = modeAdvance s.valid_stair_hints s.stair_mode_idx
    ∧ Event.log ("Error setting stair mode:" ++ e1)
        ∈ (TeleopFuncs.handleToggleStairsMode cfg w1 s).2
    ∧ (TeleopFuncs.handleToggleLocomotionMode cfg w2 s).1.locomotion_mode_idx
        = modeAdvance s.valid_locomotion_hints s.locomotion_mode_idx
    ∧ Event.log ("Error setting locomotion mode:" ++ e2)
        ∈ (TeleopFuncs.handleToggleLocomotionMode cfg w2 s).2
    ∧ Event.log ("Error setting stair mode:" ++ e2)
        ∈ (TeleopFuncs.handleToggleStairsMode cfg w2 s).2 := by
  refine ⟨rfl, ?_, rfl, ?_, rfl, ?_, ?_⟩ <;>
    simp [TeleopFuncs.handleToggleLocomotionMode, TeleopFuncs.handleToggleStairsMode,
      hget, hok, hset]

theorem C9_actuator_failure_recovered_witness :
    Event.log ("Error setting locomotion mode:" ++ "comms error")
      ∈ (TeleopFuncs.handleToggleLocomotionMode Config.default wGetFails TeleopState.init).2 :=
  (C9_actuator_failure_recovered Config.default wGetFails wSetFails TeleopState.init
    "comms error" "write refused" ⟨1, 1⟩ rfl rfl rfl).2.1

/-- Claim C1: in every sample at most one trigger is dispatched (the
arbiter's codomain is an `Option`), chosen by the strict priority
power > sit/stand > locomotion cycle > stairs cycle; in particular when the
power and stairs conditions both hold in one enabled, un-paused sample, the
whole sample's effect is exactly the power handler's — the stairs index is
untouched and no mobility-parameter call happens. -/
theorem C1_priority_arbitration (cfg : Config) (w : SpotWrapper)
    (movement_query_fn : Bool → Bool) (s : TeleopState) (j : JoyMsg)
    (hen : j.axes 2 < -0.99) (hp : s.pause = false)
    (hpow : j.axes 5 < -0.9) (hstairs : j.axes 6 < -0.9) :
    (∀ ts tl tst : Bool,
        TeleopFuncs.selectAction true ts tl tst = some TeleopFuncs.Action.power)
    ∧ (∀ tl tst : Bool,
        TeleopFuncs.selectAction false true tl tst = some TeleopFuncs.Action.sitStand)
    ∧ (∀ tst : Bool,
        TeleopFuncs.selectAction false false true tst = some TeleopFuncs.Action.locomotionCycle)
    ∧ TeleopFuncs.selectAction false false false true = some TeleopFuncs.Action.stairsCycle
    ∧ TeleopFuncs.selectAction false false false false = none
    ∧ TeleopFuncs.handle_joy cfg w movement_query_fn s j =
        ((TeleopFuncs.handleTogglePower cfg w { s with pause := true }).1,
         Event.log ("Enabled: " ++ toString s.pause) ::
           (TeleopFuncs.handleTogglePower cfg w { s with pause := true }).2)
    ∧ (TeleopFuncs.handle_joy cfg w movement_query_fn s j).1.stair_mode_idx = s.stair_mode_idx
    ∧ Event.getMobilityParams ∉ (TeleopFuncs.handle_joy cfg w movement_query_fn s j).2 := by
  have h := handle_joy_power cfg w movement_query_fn s j hen hp hpow
  refine ⟨by decide, by decide, by decide, by decide, by decide, h, ?_, ?_⟩
  · rw [h]
    rfl
  · rw [h]
    cases hw : w.check_is_powered_on <;>
      simp [TeleopFuncs.handleTogglePower, hw]

theorem C1_priority_arbitration_witness :
    Event.getMobilityParams ∉
      (TeleopFuncs.handle_joy Config.default wOff mvqAllow TeleopState.init jPowerStairs).2 :=
  (C1_priority_arbitration Config.default wOff mvqAllow TeleopState.init jPowerStairs
    (by with_unfolding_all decide) rfl (by with_unfolding_all decide)
    (by with_unfolding_all decide)).2.2.2.2.2.2.2

/-- Claim C7: starting from the initial index, successive locomotion-cycle
firings write the entries in list order starting from the second entry:
with locomotion list [AUTO, TROT, CRAWL], three firings in sequence write
locomotion hints TROT (2), CRAWL (4), AUTO (1) in that order while the
index moves 1, 2, 0; on the code's own seven-entry list the first firing
from the initial state writes the second entry, TROT. -/
theorem C7_cycle_write_order :
    Event.setMobilityParams ⟨2, 1⟩
      ∈ (TeleopFuncs.handleToggleLocomotionMode Config.default wOff sThreeEntry).2
    ∧ Event.setMobilityParams ⟨4, 1⟩
      ∈ (TeleopFuncs.handleToggleLocomotionMode Config.default wOff
          (TeleopFuncs.handleToggleLocomotionMode Config.default wOff sThreeEntry).1).2
    ∧ Event.setMobilityParams ⟨1, 1⟩
      ∈ (TeleopFuncs.handleToggleLocomotionMode Config.default wOff
          (TeleopFuncs.handleToggleLocomotionMode Config.default wOff
            (TeleopFuncs.handleToggleLocomotionMode Config.default wOff sThreeEntry).1).1).2
    ∧ (TeleopFuncs.handleToggleLocomotionMode Config.default wOff
        sThreeEntry).1.locomotion_mode_idx = 1
    ∧ (TeleopFuncs.handleToggleLocomotionMode Config.default wOff
        (TeleopFuncs.handleToggleLocomotionMode Config.default wOff
          sThreeEntry).1).1.locomotion_mode_idx = 2
    ∧ (TeleopFuncs.handleToggleLocomotionMode Config.default wOff
        (TeleopFuncs.handleToggleLocomotionMode Config.default wOff
          (TeleopFuncs.handleToggleLocomotionMode Config.default wOff
            sThreeEntry).1).1).1.locomotion_mode_idx = 0
    ∧ Event.setMobilityParams ⟨2, 1⟩
      ∈ (TeleopFuncs.handleToggleLocomotionMode Config.default wOff TeleopState.init).2 := by
  with_unfolding_all decide

/-- Claim C4, counterexample: from the initial (un-paused) state, an
enabled sample holding the sit/stand axis while the motion-authorization
predicate denies leaves `pause` true after the sample handler has returned,
although its trace holds no settle-delay sleep and no actuator call — so
`pause` is not "true only while a dispatched action's settle delay has not
yet elapsed". -/
theorem C4_counterexample :
    TeleopState.init.pause = false
    ∧ (TeleopFuncs.handle_joy Config.default wOff mvqDeny TeleopState.init jSitStand).1.pause
        = true
    ∧ (TeleopFuncs.handle_joy Config.default wOff mvqDeny TeleopState.init jSitStand).2
        = [Event.log "Enabled: false", Event.log "Received sit/stand command"] := by
  with_unfolding_all decide

/-- Claim C4 (amended): whenever the motion-authorization predicate grants
motion, the pause flag never outlives a sample-handler execution — any
settle delay elapses within the dispatch, so `pause` can still be true
after `handle_joy` only if the sample was not enabled and `pause` was
already true (the exception, shown by the counterexample, is a sit/stand
dispatch denied by the predicate, which leaves `pause` true with no settle
delay pending); and while `pause` is true at sample entry, no new trigger
is armed. -/
theorem C4_amended_pause_discipline (cfg : Config) (w : SpotWrapper)
    (movement_query_fn : Bool → Bool) (s : TeleopState) (j : JoyMsg)
    (hmv : movement_query_fn false = true) :
    ((TeleopFuncs.handle_joy cfg w movement_query_fn s j).1.pause = true →
      s.pause = true ∧ ¬ j.axes 2 < -0.99)
    ∧ (s.pause = true → j.axes 2 < -0.99 →
      TeleopFuncs.handle_joy cfg w movement_query_fn s j =
        ({ s with pause := false }, [Event.log ("Enabled: " ++ toString s.pause)])) := by
  constructor
  · intro hpost
    by_cases hen : j.axes 2 < -0.99
    · exfalso
      cases hps : s.pause
      · unfold TeleopFuncs.handle_joy at hpost
        rw [if_pos hen] at hpost
        simp only [hps] at hpost
        cases h5 : decide (j.axes 5 < -0.9) <;>
        cases h7 : decide (j.axes 7 > 0.9) <;>
        cases h6a : decide (j.axes 6 > 0.9) <;>
        cases h6b : decide (j.axes 6 < -0.9) <;>
          simp [h5, h7, h6a, h6b, TeleopFuncs.selectAction, TeleopFuncs.dispatchSelected,
            TeleopFuncs.handleTogglePower, TeleopFuncs.handleToggleSitStand,
            TeleopFuncs.handleToggleLocomotionMode, TeleopFuncs.handleToggleStairsMode,
            hmv] at hpost
      · rw [handle_joy_paused cfg w movement_query_fn s j hen hps] at hpost
        simp at hpost
    · rw [handle_joy_not_enabled cfg w movement_query_fn s j hen] at hpost
      exact ⟨hpost, hen⟩
  · intro hps hen
    exact handle_joy_paused cfg w movement_query_fn s j hen hps

theorem C4_amended_pause_discipline_witness :
    TeleopFuncs.handle_joy Config.default wOff mvqAllow
        { TeleopState.init with pause := true } jEnabledIdle =
      ({ TeleopState.init with pause := false }, [Event.log ("Enabled: " ++ toString true)]) :=
  (C4_amended_pause_discipline Config.default wOff mvqAllow
    { TeleopState.init with pause := true } jEnabledIdle rfl).2 rfl
    (by with_unfolding_all decide)

/-- Claim C5, counterexample: holding the power button across two
consecutive enabled samples fires the power trigger in both samples — the
first dispatch clears `pause` before returning, so the still-held button
re-fires immediately on the next sample; the trigger fires twice during one
continuous hold. -/
theorem C5_counterexample :
    (TeleopFuncs.handle_joy Config.default wOff mvqAllow TeleopState.init jPower).1.pause
        = false
    ∧ Event.checkIsPoweredOn
        ∈ (TeleopFuncs.handle_joy Config.default wOff mvqAllow TeleopState.init jPower).2
    ∧ Event.checkIsPoweredOn
        ∈ (TeleopFuncs.handle_joy Config.default wOff mvqAllow
            (TeleopFuncs.handle_joy Config.default wOff mvqAllow TeleopState.init jPower).1
            jPower).2 := by
  with_unfolding_all decide

/-- Claim C5 (amended): the gating is per sample, not per hold — a held
button never fires in a sample entered with `pause` true (such a sample
only clears `pause`), but the code performs no edge detection, so a button
held across consecutive enabled samples fires again in every sample entered
with `pause` false. -/
theorem C5_amended_refire_per_sample (cfg : Config) (w : SpotWrapper)
    (movement_query_fn : Bool → Bool) (s : TeleopState) (j : JoyMsg)
    (hen : j.axes 2 < -0.99) :
    (s.pause = true →
      TeleopFuncs.handle_joy cfg w movement_query_fn s j =
        ({ s with pause := false }, [Event.log ("Enabled: " ++ toString s.pause)]))
    ∧ (s.pause = false → j.axes 5 < -0.9 →
      Event.checkIsPoweredOn ∈ (TeleopFuncs.handle_joy cfg w movement_query_fn s j).2
      ∧ (TeleopFuncs.handle_joy cfg w movement_query_fn s j).1.pause = false
      ∧ Event.checkIsPoweredOn ∈
          (TeleopFuncs.handle_joy cfg w movement_query_fn
            (TeleopFuncs.handle_joy cfg w movement_query_fn s j).1 j).2) := by
  constructor
  · intro hps
    exact handle_joy_paused cfg w movement_query_fn s j hen hps
  · intro hps hpow
    have h1 := handle_joy_power cfg w movement_query_fn s j hen hps hpow
    have hfst : (TeleopFuncs.handle_joy cfg w movement_query_fn s j).1
        = { s with pause := false } := by
      rw [h1, handleTogglePower_fst]
    refine ⟨?_, ?_, ?_⟩
    · rw [h1]
      exact List.mem_cons_of_mem _ (handleTogglePower_queries cfg w _)
    · rw [hfst]
    · rw [hfst]
      have h2 := handle_joy_power cfg w movement_query_fn { s with pause := false } j
        hen rfl hpow
      rw [h2]
      exact List.mem_cons_of_mem _ (handleTogglePower_queries cfg w _)

theorem C5_amended_refire_per_sample_witness :
    Event.checkIsPoweredOn
        ∈ (TeleopFuncs.handle_joy Config.default wOff mvqAllow TeleopState.init jPower).2
    ∧ (TeleopFuncs.handle_joy Config.default wOff mvqAllow TeleopState.init jPower).1.pause
        = false
    ∧ Event.checkIsPoweredOn
        ∈ (TeleopFuncs.handle_joy Config.default wOff mvqAllow
            (TeleopFuncs.handle_joy Config.default wOff mvqAllow TeleopState.init jPower).1
            jPower).2 :=
  (C5_amended_refire_per_sample Config.default wOff mvqAllow TeleopState.init jPower
    (by with_unfolding_all decide)).2 rfl (by with_unfolding_all decide)

/-- Claim C10: when the motion-authorization predicate denies a sit/stand
dispatch, the handler returns without clearing `pause`, so `pause` stays
true after the sample (its trace shows only the two log lines, no sit or
stand call, indices unchanged); the next enabled sample arms no trigger and
merely clears `pause`; and the enabled sample after that can fire a trigger
again (here the power toggle, which queries the powered-on state). -/
theorem C10_denied_sit_stand_pause_persists (cfg : Config) (w : SpotWrapper)
    (movement_query_fn : Bool → Bool) (s : TeleopState) (j1 j2 j3 : JoyMsg)
    (hp : s.pause = false)
    (hen1 : j1.axes 2 < -0.99) (hss : j1.axes 7 > 0.9) (hnp : ¬ j1.axes 5 < -0.9)
    (hdeny : movement_query_fn false = false)
    (hen2 : j2.axes 2 < -0.99)
    (hen3 : j3.axes 2 < -0.99) (hpow3 : j3.axes 5 < -0.9) :
    (TeleopFuncs.handle_joy cfg w movement_query_fn s j1).1 = { s with pause := true }
    ∧ (TeleopFuncs.handle_joy cfg w movement_query_fn s j1).2
        = [Event.log ("Enabled: " ++ toString s.pause),
           Event.log "Received sit/stand command"]
    ∧ TeleopFuncs.handle_joy cfg w movement_query_fn
        (TeleopFuncs.handle_joy cfg w movement_query_fn s j1).1 j2
        = ({ s with pause := false }, [Event.log ("Enabled: " ++ toString true)])
    ∧ Event.checkIsPoweredOn ∈ (TeleopFuncs.handle_joy cfg w movement_query_fn
        (TeleopFuncs.handle_joy cfg w movement_query_fn
          (TeleopFuncs.handle_joy cfg w movement_query_fn s j1).1 j2).1 j3).2 := by
  have h1 := handle_joy_sit_stand_denied cfg w movement_query_fn s j1 hen1 hp hnp hss hdeny
  have hs1 : (TeleopFuncs.handle_joy cfg w movement_query_fn s j1).1
      = { s with pause := true } := by rw [h1]
  have h2 := handle_joy_paused cfg w movement_query_fn { s with pause := true } j2 hen2 rfl
  have hs2 : TeleopFuncs.handle_joy cfg w movement_query_fn { s with pause := true } j2
      = ({ s with pause := false }, [Event.log ("Enabled: " ++ toString true)]) := by
    rw [h2]
  refine ⟨hs1, by rw [h1], ?_, ?_⟩
  · rw [hs1]
    exact hs2
  · rw [hs1, hs2]
    have h3 := handle_joy_power cfg w movement_query_fn { s with pause := false } j3
      hen3 rfl hpow3
    rw [h3]
    exact List.mem_cons_of_mem _ (handleTogglePower_queries cfg w _)

theorem C10_denied_sit_stand_pause_persists_witness :
    Event.checkIsPoweredOn ∈ (TeleopFuncs.handle_joy Config.default wOff mvqDeny
        (TeleopFuncs.handle_joy Config.default wOff mvqDeny
          (TeleopFuncs.handle_joy Config.default wOff mvqDeny TeleopState.init jSitStand).1
          jEnabledIdle).1 jPower).2 :=
  (C10_denied_sit_stand_pause_persists Config.default wOff mvqDeny TeleopState.init
    jSitStand jEnabledIdle jPower rfl
    (by with_unfolding_all decide) (by with_unfolding_all decide)
    (by with_unfolding_all decide) rfl
    (by with_unfolding_all decide) (by with_unfolding_all decide)
    (by with_unfolding_all decide)).2.2.2

end SpotTeleop
